import Mathlib

/-!
Verification development for the RAG document-query service in `src/main.py`
(FastAPI app with three endpoints: `upload_document`, `query_document`,
`list_documents`, backed by a MongoDB registry, Cloudinary blob storage and
FAISS vector stores persisted under `vector_stores/`).

The endpoints are embedded as explicit state-passing functions.  External
collaborators (Cloudinary, PDF parsing, the embedding service, MongoDB's
network layer) can fail; each call's success is an explicit boolean in an
environment record, so one run of an endpoint is a pure function of the
request, the environment and the current durable state.
-/

/-- A document record as stored in the MongoDB `documents` collection
(`document_data`, src/main.py lines 158-164). -/
structure DocRecord where
  document_id : String
  filename : String
  cloudinary_url : String
  vector_store_path : String
  upload_date : String
deriving Repr, DecidableEq

/-- The response model `DocumentResponse` (src/main.py lines 56-60):
the registry record minus the internal `vector_store_path`. -/
structure DocumentResponse where
  document_id : String
  filename : String
  cloudinary_url : String
  upload_date : String
deriving Repr, DecidableEq

/-- The query request model `QueryRequest` (src/main.py lines 52-54).
Its only fields are the document identity and the question text. -/
structure QueryRequest where
  document_id : String
  query : String
deriving Repr, DecidableEq

/-- The durable state shared by all requests: the MongoDB `documents`
collection (in insertion order), the set of persisted FAISS vector stores
(their paths), the Cloudinary blobs (their public ids), and the temp files
currently present in the server's `temp/` directory. -/
structure SysState where
  registry : List DocRecord
  vectorStores : List String
  blobs : List String
  tempFiles : List String
deriving Repr, DecidableEq

/-- The state of a freshly deployed service: no records anywhere. -/
def initState : SysState := ⟨[], [], [], []⟩

/-- Outcome of one HTTP endpoint call: a value, or an HTTPException
carrying a status code and a detail string. -/
inductive HttpResult (α : Type) where
  | ok (val : α)
  | httpError (status : Nat) (detail : String)
deriving Repr, DecidableEq

/-- The lookup `documents_collection.find_one` on the `document_id` field
(src/main.py line 185): first record with the given identity, if any. -/
def find_one (coll : List DocRecord) (docId : String) : Option DocRecord :=
  coll.find? (fun d => d.document_id == docId)

/-- The write `documents_collection.insert_one` (src/main.py line 165).
The `lifespan` handler would create a unique index on `document_id`
(line 78), but `app.lifespan = lifespan` (line 86) is a plain attribute
assignment that never registers the handler — FastAPI reads the lifespan
only at construction — so the index does not exist and MongoDB appends the
record unconditionally under a fresh `_id`: a second record with an
already-present `document_id` is stored alongside the first, neither
rejected nor overwriting it. -/
def insert_one (coll : List DocRecord) (r : DocRecord) : List DocRecord :=
  coll ++ [r]

/-- The filename gate of `upload_document`
(src/main.py line 94: `file.filename.lower().endswith('.pdf')`), written on
the filename's character list: lowercase it, then test for the suffix
".pdf". -/
def endsWithPdf (filename : String) : Bool :=
  List.isSuffixOf ['.', 'p', 'd', 'f'] (filename.data.map Char.toLower)

/-- Success/failure of the external calls made by one run of
`upload_document`, plus the values those calls return (uuids, the
Cloudinary public id / url / timestamp). -/
structure UploadEnv where
  tempName : String
  tempWriteOk : Bool
  cloudinaryOk : Bool
  publicId : String
  secureUrl : String
  createdAt : String
  pdfParseOk : Bool
  indexOk : Bool
  insertOk : Bool
  docId : String
deriving Repr, DecidableEq

/-- The `upload_document` endpoint (src/main.py lines 90-179) as a state
transformer.  Control flow mirrors the source: filename gate (94),
empty-content gate (113), temp-file write (116-121), Cloudinary upload
(131-136), PDF load (140-145), chunking (147, no durable effect), vector
store build + `save_local` at `vector_stores/<public_id>` (150-154),
MongoDB `insert_one` (157-165), temp-file cleanup (169), response (171).
Any exception after the explicit gates is caught by the trailing
`except Exception` and reported as HTTP 500; `HTTPException`s raised by the
gates are re-raised unchanged by the `except HTTPException` clause (173-175).
No failure path deletes the blob, the persisted store, or the temp file. -/
def upload_document (env : UploadEnv) (filename : String) (content : String)
    (s : SysState) : SysState × HttpResult DocumentResponse :=
  if ¬ endsWithPdf filename then
    (s, .httpError 400 "Only PDF files are allowed")
  else if content.isEmpty then
    (s, .httpError 400 "Uploaded file is empty or could not be read.")
  else if ¬ env.tempWriteOk then
    (s, .httpError 500 "Failed to create temporary file or it is empty after writing")
  else
    let s1 : SysState := { s with tempFiles := s.tempFiles ++ [env.tempName] }
    if ¬ env.cloudinaryOk then
      (s1, .httpError 500 "Internal server error: cloudinary upload failed")
    else
      let s2 : SysState := { s1 with blobs := s1.blobs ++ [env.publicId] }
      if ¬ env.pdfParseOk then
        (s2, .httpError 400 "Failed to load document (PDFium)")
      else
        let persistentPath := "vector_stores/" ++ env.publicId
        if ¬ env.indexOk then
          (s2, .httpError 500 "Internal server error: vector store failure")
        else
          let s3 : SysState :=
            { s2 with vectorStores := s2.vectorStores ++ [persistentPath] }
          let record : DocRecord :=
            ⟨env.docId, filename, env.secureUrl, persistentPath, env.createdAt⟩
          if ¬ env.insertOk then
            (s3, .httpError 500 "Internal server error: insert failed")
          else
            let s4 : SysState := { s3 with registry := insert_one s3.registry record }
            let s5 : SysState :=
              { s4 with tempFiles := s4.tempFiles.erase env.tempName }
            (s5, .ok ⟨record.document_id, record.filename,
                      record.cloudinary_url, record.upload_date⟩)

/-- Success/failure of the external calls made by one run of
`query_document`, the generated answer, and the document's chunks as the
loaded vector store ranks them for this query (best-first); the retriever
returns a prefix of this ranking. -/
structure QueryEnv where
  loadOk : Bool
  genOk : Bool
  answer : String
  ranked : List String
deriving Repr, DecidableEq

/-- A Python exception escaping the `try` body of `query_document`:
either an `HTTPException` (status, detail) or any other exception. -/
inductive PyExc where
  | httpExc (status : Nat) (detail : String)
  | other (msg : String)
deriving Repr, DecidableEq

/-- Python's `str(e)` for the exceptions of `PyExc`: Starlette's
`HTTPException` prints as `"<status>: <detail>"`. -/
def pyExcStr : PyExc → String
  | .httpExc status detail => toString status ++ ": " ++ detail
  | .other msg => msg

/-- The successful JSON body of `query_document` (src/main.py 204-209). -/
structure QueryOk where
  document_id : String
  query : String
  answer : String
  context : List String
deriving Repr, DecidableEq

/-- The retrieval width used when serving a query request: the retriever is
built with k = 3 (`search_kwargs`, src/main.py line 197), a literal
independent of the request, whose only fields are `document_id` and
`query`. -/
def queryRetrievalWidth (_ : QueryRequest) : Nat := 3

/-- The `try` body of `query_document` (src/main.py lines 183-209):
registry lookup (185-187, raising `HTTPException(404, "Document not found")`
when absent), `FAISS.load_local` of the recorded vector store path
(190-194, raising when the store is missing or the load fails), retrieval of
the top-k chunks and generation (197-202, raising on upstream failure),
response with the retrieved chunk texts as `context` (204-209). -/
def query_try_body (env : QueryEnv) (req : QueryRequest) (s : SysState) :
    Except PyExc QueryOk :=
  match find_one s.registry req.document_id with
  | none => .error (.httpExc 404 "Document not found")
  | some document =>
    if s.vectorStores.contains document.vector_store_path && env.loadOk then
      if env.genOk then
        .ok ⟨req.document_id, req.query, env.answer,
             env.ranked.take (queryRetrievalWidth req)⟩
      else
        .error (.other "generation failed")
    else
      .error (.other "vector store load failed")

/-- The `query_document` endpoint (src/main.py lines 181-213).  Its only
exception handler is `except Exception` (211-213), which catches every
exception — `HTTPException`s raised inside the body included, since
`HTTPException` subclasses `Exception` and no `except HTTPException`
clause precedes it — and re-raises HTTP 500 with detail
`"Internal server error: " + str(e)`.  The endpoint never writes state. -/
def query_document (env : QueryEnv) (req : QueryRequest) (s : SysState) :
    HttpResult QueryOk :=
  match query_try_body env req s with
  | .ok v => .ok v
  | .error e => .httpError 500 ("Internal server error: " ++ pyExcStr e)

/-- The `list_documents` endpoint (src/main.py lines 215-222): read the
first 100 records (`find().to_list(length=100)`) and project each to a
`DocumentResponse`.  It performs no write. -/
def list_documents (s : SysState) : SysState × List DocumentResponse :=
  (s, (s.registry.take 100).map
        (fun r => ⟨r.document_id, r.filename, r.cloudinary_url, r.upload_date⟩))

/-- Modelled from the spec: the Chunker's splitting policy.  The repository
delegates chunking to langchain's `CharacterTextSplitter(chunk_size=1000,
chunk_overlap=0)` (src/main.py line 147), whose implementation is not part of
this repository; the policy is taken from the spec's words (§4.2): a simple
fixed-size character-count splitter with configurable overlap, covering the
full input with no gaps, never dropping trailing partial content — the final
chunk may be shorter than `chunk_size`.  Each chunk takes `size` characters;
consecutive chunks start `size - overlap` characters apart.  Degenerate
configurations (`size ≤ overlap`, excluded by the spec's
`overlap < chunk_size`) return the text as a single chunk. -/
def split_text (size overlap : Nat) (t : List Char) : List (List Char) :=
  if _h : t.length ≤ size ∨ size ≤ overlap then [t]
  else t.take size :: split_text size overlap (t.drop (size - overlap))
  termination_by t.length
  decreasing_by
    simp only [List.length_drop]
    omega

/-- Concatenation of chunks with overlaps removed (spec §8): keep the first
chunk whole and drop the first `overlap` characters of every later chunk. -/
def joinChunks (overlap : Nat) : List (List Char) → List Char
  | [] => []
  | c :: cs => c ++ (cs.map (fun d => List.drop overlap d)).flatten

/-- The chunk-count formula claimed in spec §8,
`ceil((L - overlap) / (size - overlap))`, read over the rationals. -/
def specChunkCount (L size overlap : Nat) : Int :=
  Int.ceil (((L : ℚ) - (overlap : ℚ)) / ((size : ℚ) - (overlap : ℚ)))

/-- One request handled against the durable state: an upload (with any
environment), a query (reads only), or a listing (reads only). -/
inductive Step : SysState → SysState → Prop
  | upload (env : UploadEnv) (filename content : String) (s : SysState) :
      Step s (upload_document env filename content s).1
  | query (env : QueryEnv) (req : QueryRequest) (s : SysState) : Step s s
  | list (s : SysState) : Step s (list_documents s).1

/-- States the service can reach from a fresh deployment by any sequence of
requests with any outcomes of the external calls. -/
inductive Reachable : SysState → Prop
  | init : Reachable initState
  | step {s s' : SysState} : Reachable s → Step s s' → Reachable s'

/-- Unfolding `split_text` when the text fits in one chunk (or the
configuration is degenerate). -/
theorem split_text_small (size overlap : Nat) (t : List Char)
    (h : t.length ≤ size ∨ size ≤ overlap) :
    split_text size overlap t = [t] := by
  rw [split_text.eq_def, dif_pos h]

/-- Unfolding `split_text` when the text is longer than one chunk. -/
theorem split_text_step (size overlap : Nat) (t : List Char)
    (h : ¬ (t.length ≤ size ∨ size ≤ overlap)) :
    split_text size overlap t
      = t.take size :: split_text size overlap (t.drop (size - overlap)) := by
  rw [split_text.eq_def, dif_neg h]

/-- Glueing a middle segment to the tail it borders: characters `[a, b)`
followed by characters `[b, ∞)` are the characters `[a, ∞)`. -/
theorem take_drop_reconstruct (a b : Nat) (hab : a ≤ b) (t : List Char) :
    List.drop a (List.take b t) ++ List.drop b t = List.drop a t := by
  have hb : List.drop b t = List.drop (b - a) (List.drop a t) := by
    rw [List.drop_drop]
    congr 1
    omega
  rw [List.drop_take b a t, hb, List.take_append_drop]

/-- Dropping the overlap from every chunk of `split_text` and concatenating
yields the text minus its first `overlap` characters. -/
theorem split_text_dropped_flatten (size overlap : Nat) (hov : overlap < size) :
    ∀ (n : Nat) (t : List Char), t.length ≤ n →
      ((split_text size overlap t).map (fun d => List.drop overlap d)).flatten
        = List.drop overlap t := by
  intro n
  induction n with
  | zero =>
    intro t ht
    rw [split_text_small size overlap t (Or.inl (by omega))]
    simp
  | succ n ih =>
    intro t ht
    by_cases h : t.length ≤ size
    · rw [split_text_small size overlap t (Or.inl h)]
      simp
    · have h' : ¬ (t.length ≤ size ∨ size ≤ overlap) := by omega
      rw [split_text_step size overlap t h']
      simp only [List.map_cons, List.flatten_cons]
      rw [ih (t.drop (size - overlap)) (by simp only [List.length_drop]; omega)]
      rw [List.drop_drop]
      have hso : (size - overlap) + overlap = size := by omega
      rw [hso, take_drop_reconstruct overlap size (by omega) t]

/-- The chunks of `split_text`, with overlaps removed, reconstruct the
text exactly. -/
theorem split_text_reconstruct (size overlap : Nat) (hov : overlap < size)
    (t : List Char) :
    joinChunks overlap (split_text size overlap t) = t := by
  by_cases h : t.length ≤ size
  · rw [split_text_small size overlap t (Or.inl h)]
    simp [joinChunks]
  · have h' : ¬ (t.length ≤ size ∨ size ≤ overlap) := by omega
    rw [split_text_step size overlap t h']
    show t.take size
        ++ ((split_text size overlap (t.drop (size - overlap))).map
              (fun d => List.drop overlap d)).flatten = t
    rw [split_text_dropped_flatten size overlap hov
          (t.drop (size - overlap)).length (t.drop (size - overlap)) le_rfl]
    rw [List.drop_drop]
    have hso : (size - overlap) + overlap = size := by omega
    rw [hso, List.take_append_drop]

/-- The number of chunks of `split_text`, for texts longer than the
overlap: the ceiling of `(L - overlap) / (size - overlap)`, written with
natural-number division. -/
theorem split_text_length_aux (size overlap : Nat) (hov : overlap < size) :
    ∀ (n : Nat) (t : List Char), t.length ≤ n → overlap < t.length →
      (split_text size overlap t).length
        = (t.length - overlap + (size - overlap) - 1) / (size - overlap) := by
  intro n
  induction n with
  | zero => intro t ht hl; omega
  | succ n ih =>
    intro t ht hl
    have hstep : 0 < size - overlap := by omega
    by_cases h : t.length ≤ size
    · rw [split_text_small size overlap t (Or.inl h)]
      show 1 = (t.length - overlap + (size - overlap) - 1) / (size - overlap)
      rw [show t.length - overlap + (size - overlap) - 1
            = (t.length - overlap - 1) + (size - overlap) by omega,
          Nat.add_div_right _ hstep, Nat.div_eq_of_lt (by omega)]
    · have h' : ¬ (t.length ≤ size ∨ size ≤ overlap) := by omega
      rw [split_text_step size overlap t h']
      simp only [List.length_cons]
      rw [ih (t.drop (size - overlap)) (by simp only [List.length_drop]; omega)
            (by simp only [List.length_drop]; omega)]
      simp only [List.length_drop]
      rw [show t.length - overlap + (size - overlap) - 1
            = (t.length - (size - overlap) - overlap + (size - overlap) - 1)
                + (size - overlap) by omega,
          Nat.add_div_right _ hstep]

/-- One run of `upload_document` preserves the registry-index invariant:
the vector store is persisted (`save_local`, src/main.py line 154) strictly
before the registry insert (line 165), no path removes a persisted store,
and the registry grows only by the record pointing at the store persisted
in the same run. -/
theorem upload_preserves_inv (env : UploadEnv) (filename content : String)
    (s : SysState)
    (h : ∀ r ∈ s.registry, r.vector_store_path ∈ s.vectorStores) :
    ∀ r ∈ (upload_document env filename content s).1.registry,
      r.vector_store_path ∈ (upload_document env filename content s).1.vectorStores := by
  simp only [upload_document]
  split
  · exact h
  split
  · exact h
  split
  · exact h
  split
  · exact h
  split
  · exact h
  split
  · exact h
  split
  · exact fun r hr => List.mem_append_left _ (h r hr)
  intro r hr
  simp only [insert_one] at hr
  rcases List.mem_append.mp hr with h1 | h2
  · exact List.mem_append_left _ (h r h1)
  · rcases List.mem_singleton.mp h2 with rfl
    exact List.mem_append_right _ (List.mem_singleton.mpr rfl)

/-- C1: the claim says a query for a never-ingested identity returns the
typed 404 "Document not found" rather than a generic internal error.  In the
code the only handler of `query_document` is `except Exception`
(src/main.py lines 211-213); it also catches the `HTTPException(404,
"Document not found")` raised at line 187 — `HTTPException` subclasses
`Exception` and, unlike `upload_document`, `query_document` has no
`except HTTPException` re-raise clause — and re-raises it as HTTP 500
"Internal server error: 404: Document not found". -/
theorem c1_query_missing_identity_returns_500 :
    query_document ⟨true, true, "an answer", ["alpha"]⟩
        ⟨"never-ingested", "a question"⟩ initState
      = .httpError 500 "Internal server error: 404: Document not found" := rfl

/-- Environment of an ingest run in which every step up to and including
index persistence succeeds and the registry insertion fails. -/
def envC2 : UploadEnv :=
  ⟨"tmp_a", true, true, "rag_documents/doc_a", "https://cdn/a",
   "2024-01-01", true, true, false, "id-a"⟩

/-- C2 counterexample: an ingest whose registry insertion fails after the
index was persisted leaves the persisted index in storage with no registry
record referencing it — the compensating deletion the claim describes does
not exist in the code. -/
theorem c2_counterexample :
    (upload_document envC2 "a.pdf" "content" initState).1.vectorStores
        = ["vector_stores/rag_documents/doc_a"] ∧
    (upload_document envC2 "a.pdf" "content" initState).1.registry = [] ∧
    (upload_document envC2 "a.pdf" "content" initState).2
        = .httpError 500 "Internal server error: insert failed" :=
  ⟨rfl, rfl, rfl⟩

/-- C2 (amended): for every ingest in which persistence of the index
succeeds and the subsequent registry insertion fails, the code reports a
generic 500 failure and leaves the persisted index in storage, unreferenced
by the registry; no compensating deletion happens. -/
theorem c2_orphan_index_remains (env : UploadEnv) (filename content : String)
    (s : SysState) (hf : endsWithPdf filename = true)
    (hc : content.isEmpty = false) (ht : env.tempWriteOk = true)
    (hcl : env.cloudinaryOk = true) (hp : env.pdfParseOk = true)
    (hi : env.indexOk = true) (hins : env.insertOk = false) :
    (upload_document env filename content s).2
        = .httpError 500 "Internal server error: insert failed" ∧
    ("vector_stores/" ++ env.publicId)
        ∈ (upload_document env filename content s).1.vectorStores ∧
    (upload_document env filename content s).1.registry = s.registry := by
  simp [upload_document, hf, hc, ht, hcl, hp, hi, hins]

/-- Witness for C2 (amended) at a concrete run. -/
theorem c2_orphan_index_remains_witness :
    (upload_document envC2 "a.pdf" "content" initState).2
        = .httpError 500 "Internal server error: insert failed" ∧
    ("vector_stores/" ++ envC2.publicId)
        ∈ (upload_document envC2 "a.pdf" "content" initState).1.vectorStores ∧
    (upload_document envC2 "a.pdf" "content" initState).1.registry
        = initState.registry :=
  c2_orphan_index_remains envC2 "a.pdf" "content" initState
    rfl rfl rfl rfl rfl rfl rfl

/-- C3 counterexample: for text "a" (L = 1) with chunk_size 2 and overlap 1,
the splitter produces one chunk but the claimed formula
`ceil((L - overlap) / (size - overlap))` gives 0. -/
theorem c3_count_formula_counterexample :
    (split_text 2 1 ['a']).length = 1 ∧ specChunkCount 1 2 1 = 0 ∧
    ((split_text 2 1 ['a']).length : Int) ≠ specChunkCount 1 2 1 := by
  have hs : split_text 2 1 ['a'] = [['a']] :=
    split_text_small 2 1 ['a'] (Or.inl (by norm_num))
  have hc : specChunkCount 1 2 1 = 0 := by
    norm_num [specChunkCount]
  refine ⟨by simp [hs], hc, ?_⟩
  simp [hs, hc]

/-- C3 (amended): for every text and configuration with `0 < chunk_size`
and `overlap < chunk_size`, the concatenation of the chunks with overlaps
removed reconstructs the text exactly; when `overlap < L` the chunk count
is `ceil((L - overlap) / (size - overlap))`; when `0 < L ≤ overlap` a
single chunk is produced (where the claimed formula would give ≤ 0). -/
theorem c3_chunker_reconstruction_and_count (size overlap : Nat)
    (t : List Char) (_hsize : 0 < size) (hov : overlap < size)
    (_hL : 0 < t.length) :
    joinChunks overlap (split_text size overlap t) = t ∧
    (overlap < t.length →
      (split_text size overlap t).length
        = (t.length - overlap + (size - overlap) - 1) / (size - overlap)) ∧
    (t.length ≤ overlap → (split_text size overlap t).length = 1) := by
  refine ⟨split_text_reconstruct size overlap hov t,
          fun hl => split_text_length_aux size overlap hov t.length t le_rfl hl,
          fun hl => ?_⟩
  rw [split_text_small size overlap t (Or.inl (by omega))]
  rfl

/-- Witness for C3 (amended) on the five-character text "abcde" with
chunk_size 3 and overlap 1: chunks "abc", "cde"; count 2. -/
theorem c3_chunker_reconstruction_and_count_witness :
    joinChunks 1 (split_text 3 1 ['a', 'b', 'c', 'd', 'e'])
        = ['a', 'b', 'c', 'd', 'e'] ∧
    (1 < (['a', 'b', 'c', 'd', 'e'] : List Char).length →
      (split_text 3 1 ['a', 'b', 'c', 'd', 'e']).length
        = ((['a', 'b', 'c', 'd', 'e'] : List Char).length - 1 + (3 - 1) - 1)
            / (3 - 1)) ∧
    ((['a', 'b', 'c', 'd', 'e'] : List Char).length ≤ 1 →
      (split_text 3 1 ['a', 'b', 'c', 'd', 'e']).length = 1) :=
  c3_chunker_reconstruction_and_count 3 1 ['a', 'b', 'c', 'd', 'e']
    (by norm_num) (by norm_num) (by norm_num)

/-- C4: an ingest of a zero-byte upload fails with the empty-file 400 error
(the code's `UnreadableDocument`) and leaves the whole durable state —
registry and persisted indices included — unchanged. -/
theorem c4_empty_upload_rejected (env : UploadEnv) (filename : String)
    (s : SysState) (hf : endsWithPdf filename = true) :
    upload_document env filename "" s
      = (s, .httpError 400 "Uploaded file is empty or could not be read.") := by
  simp [upload_document, hf, show ("" : String).isEmpty = true from rfl]

/-- Witness for C4 at a concrete zero-byte upload. -/
theorem c4_empty_upload_rejected_witness :
    upload_document ⟨"tmp_w", true, true, "rag_documents/doc_w",
        "https://cdn/w", "2024-01-06", true, true, true, "id-w"⟩ "w.pdf" "" initState
      = (initState,
         .httpError 400 "Uploaded file is empty or could not be read.") :=
  c4_empty_upload_rejected
    ⟨"tmp_w", true, true, "rag_documents/doc_w", "https://cdn/w",
     "2024-01-06", true, true, true, "id-w"⟩ "w.pdf" initState rfl

/-- C5: in every reachable state every registry record points at a
persisted vector store — `save_local` (src/main.py line 154) runs strictly
before `insert_one` (line 165) and no code path removes a persisted
store. -/
theorem c5_registry_implies_persisted (s : SysState) (h : Reachable s) :
    ∀ r ∈ s.registry, r.vector_store_path ∈ s.vectorStores := by
  induction h with
  | init => intro r hr; simp [initState] at hr
  | step hprev hstep ih =>
    revert ih
    cases hstep with
    | upload env filename content => exact upload_preserves_inv env filename content _
    | query env req => exact id
    | list => exact id

/-- Environment of a fully successful ingest run. -/
def envC5 : UploadEnv :=
  ⟨"tmp_b", true, true, "rag_documents/doc_b", "https://cdn/b",
   "2024-01-02", true, true, true, "id-b"⟩

/-- Witness for C5: the record created by a successful ingest from the
initial state points at a persisted store. -/
theorem c5_registry_implies_persisted_witness :
    (⟨"id-b", "b.pdf", "https://cdn/b", "vector_stores/rag_documents/doc_b",
      "2024-01-02"⟩ : DocRecord).vector_store_path
      ∈ (upload_document envC5 "b.pdf" "content" initState).1.vectorStores :=
  c5_registry_implies_persisted _
    (Reachable.step Reachable.init (Step.upload envC5 "b.pdf" "content" initState))
    ⟨"id-b", "b.pdf", "https://cdn/b", "vector_stores/rag_documents/doc_b",
     "2024-01-02"⟩ (by decide)

/-- C6: the claim says a second record with an already-present identity is
rejected with `DuplicateIdentity` and does not overwrite the existing
record.  In the code the unique index on `document_id` that would enforce
this (src/main.py line 78) is never created, because `app.lifespan =
lifespan` (line 86) does not register the lifespan handler; evaluated at a
collection already holding the identity "dup-id", a second insert with
that identity therefore succeeds, storing both records side by side (the
first record survives unchanged and is still what `find_one` returns). -/
theorem c6_duplicate_insert_succeeds :
    insert_one (insert_one [] ⟨"dup-id", "x.pdf", "u1", "p1", "d1"⟩)
        ⟨"dup-id", "y.pdf", "u2", "p2", "d2"⟩
      = [⟨"dup-id", "x.pdf", "u1", "p1", "d1"⟩,
         ⟨"dup-id", "y.pdf", "u2", "p2", "d2"⟩] ∧
    find_one (insert_one (insert_one [] ⟨"dup-id", "x.pdf", "u1", "p1", "d1"⟩)
        ⟨"dup-id", "y.pdf", "u2", "p2", "d2"⟩) "dup-id"
      = some ⟨"dup-id", "x.pdf", "u1", "p1", "d1"⟩ :=
  ⟨rfl, rfl⟩

/-- Environment of an ingest run whose Cloudinary upload fails. -/
def envC7 : UploadEnv :=
  ⟨"tmp_c", true, false, "rag_documents/doc_c", "https://cdn/c",
   "2024-01-03", true, true, true, "id-c"⟩

/-- C7 counterexample: when the Blob Store (Cloudinary) upload fails the
ingest does not succeed — the exception from line 131 reaches the generic
handler, the request fails with HTTP 500, and no registry record and no
persisted index are created. -/
theorem c7_counterexample :
    (upload_document envC7 "c.pdf" "content" initState).2
        = .httpError 500 "Internal server error: cloudinary upload failed" ∧
    (upload_document envC7 "c.pdf" "content" initState).1.registry = [] ∧
    (upload_document envC7 "c.pdf" "content" initState).1.vectorStores = [] :=
  ⟨rfl, rfl, rfl⟩

/-- C7 (amended): a Blob Store failure aborts the whole ingest with a
generic 500 — extraction, indexing, persistence and registry insertion do
not proceed, so no record (degraded or otherwise) is created. -/
theorem c7_blob_failure_aborts_ingest (env : UploadEnv)
    (filename content : String) (s : SysState)
    (hf : endsWithPdf filename = true) (hc : content.isEmpty = false)
    (ht : env.tempWriteOk = true) (hcl : env.cloudinaryOk = false) :
    (upload_document env filename content s).2
        = .httpError 500 "Internal server error: cloudinary upload failed" ∧
    (upload_document env filename content s).1.registry = s.registry ∧
    (upload_document env filename content s).1.vectorStores = s.vectorStores := by
  simp [upload_document, hf, hc, ht, hcl]

/-- Witness for C7 (amended) at a concrete run. -/
theorem c7_blob_failure_aborts_ingest_witness :
    (upload_document envC7 "c.pdf" "content" initState).2
        = .httpError 500 "Internal server error: cloudinary upload failed" ∧
    (upload_document envC7 "c.pdf" "content" initState).1.registry
        = initState.registry ∧
    (upload_document envC7 "c.pdf" "content" initState).1.vectorStores
        = initState.vectorStores :=
  c7_blob_failure_aborts_ingest envC7 "c.pdf" "content" initState
    rfl rfl rfl rfl

/-- C8 counterexample: the retrieval width is 3 for every request — the
request type carries only `document_id` and `query`, so no caller input
changes it; k is not configurable. -/
theorem c8_counterexample :
    queryRetrievalWidth ⟨"some-doc", "some-question"⟩ = 3 ∧
    ∀ req : QueryRequest,
      queryRetrievalWidth req
        = queryRetrievalWidth ⟨"some-doc", "some-question"⟩ :=
  ⟨rfl, fun _ => rfl⟩

/-- C8 (amended): every query is served with the hardcoded retrieval width
k = 3, and a successful query returns as evidence exactly the top 3 chunks
of the store's ranking; the width is not configurable by the caller. -/
theorem c8_k_fixed_three (env : QueryEnv) (req : QueryRequest) (s : SysState)
    (v : QueryOk) (h : query_document env req s = .ok v) :
    queryRetrievalWidth req = 3 ∧ v.context = env.ranked.take 3 := by
  refine ⟨rfl, ?_⟩
  have hb : query_try_body env req s = .ok v := by
    revert h
    unfold query_document
    cases query_try_body env req s with
    | ok w => intro h; injection h with hv; rw [hv]
    | error e => intro h; cases h
  revert hb
  unfold query_try_body
  intro hb
  split at hb
  · cases hb
  · split at hb
    · split at hb
      · injection hb with hb'
        rw [← hb']
        rfl
      · cases hb
    · cases hb

/-- Success environment and populated state for the C8 witness. -/
def qenvC8 : QueryEnv :=
  ⟨true, true, "the answer", ["alpha", "beta", "gamma", "delta"]⟩

/-- State holding one ingested document for the C8 witness. -/
def stateC8 : SysState :=
  ⟨[⟨"id-q", "q.pdf", "https://cdn/q", "vector_stores/rag_documents/doc_q",
     "2024-01-04"⟩],
   ["vector_stores/rag_documents/doc_q"], [], []⟩

/-- Witness for C8 (amended) at a concrete successful query. -/
theorem c8_k_fixed_three_witness :
    queryRetrievalWidth ⟨"id-q", "what?"⟩ = 3 ∧
    (⟨"id-q", "what?", "the answer",
      ["alpha", "beta", "gamma"]⟩ : QueryOk).context
      = qenvC8.ranked.take 3 :=
  c8_k_fixed_three qenvC8 ⟨"id-q", "what?"⟩ stateC8
    ⟨"id-q", "what?", "the answer", ["alpha", "beta", "gamma"]⟩ (by decide)

/-- C9: `list_documents` writes nothing, and calling it twice with no
intervening ingest returns the same sequence both times. -/
theorem c9_list_documents_idempotent (s : SysState) :
    (list_documents (list_documents s).1).2 = (list_documents s).2 ∧
    (list_documents s).1 = s :=
  ⟨rfl, rfl⟩

/-- Environment of an ingest run whose PDF parse fails after the blob
upload succeeded. -/
def envC10 : UploadEnv :=
  ⟨"tmp_d", true, true, "rag_documents/doc_d", "https://cdn/d",
   "2024-01-05", false, true, true, "id-d"⟩

/-- C10: every ingest that fails after the Cloudinary upload — whether at
the PDF parse (src/main.py 140-145), at index build/persist (153-154) or
at the registry insert (165) — returns an error and rolls back nothing:
the uploaded blob stays in the Blob Store and the temp file stays on disk
(no Cloudinary delete exists, and the cleanup at line 169 runs only on the
success path). -/
theorem c10_no_rollback_after_blob_upload (env : UploadEnv)
    (filename content : String) (s : SysState)
    (hf : endsWithPdf filename = true) (hc : content.isEmpty = false)
    (ht : env.tempWriteOk = true) (hcl : env.cloudinaryOk = true)
    (hfail : env.pdfParseOk = false ∨ env.indexOk = false
              ∨ env.insertOk = false) :
    (∀ resp : DocumentResponse,
      (upload_document env filename content s).2 ≠ .ok resp) ∧
    (upload_document env filename content s).1.blobs
        = s.blobs ++ [env.publicId] ∧
    (upload_document env filename content s).1.tempFiles
        = s.tempFiles ++ [env.tempName] := by
  by_cases hp : env.pdfParseOk = true
  · by_cases hi : env.indexOk = true
    · by_cases hins : env.insertOk = true
      · rcases hfail with hx | hx | hx <;> simp_all
      · refine ⟨?_, ?_, ?_⟩ <;> simp [upload_document, hf, hc, ht, hcl, hp, hi, hins]
    · refine ⟨?_, ?_, ?_⟩ <;> simp [upload_document, hf, hc, ht, hcl, hp, hi]
  · refine ⟨?_, ?_, ?_⟩ <;> simp [upload_document, hf, hc, ht, hcl, hp]

/-- Witness for C10 at a concrete run failing at the PDF parse. -/
theorem c10_no_rollback_after_blob_upload_witness :
    (∀ resp : DocumentResponse,
      (upload_document envC10 "d.pdf" "content" initState).2 ≠ .ok resp) ∧
    (upload_document envC10 "d.pdf" "content" initState).1.blobs
        = initState.blobs ++ [envC10.publicId] ∧
    (upload_document envC10 "d.pdf" "content" initState).1.tempFiles
        = initState.tempFiles ++ [envC10.tempName] :=
  c10_no_rollback_after_blob_upload envC10 "d.pdf" "content" initState
    rfl rfl rfl rfl (Or.inl rfl)
